import Mathlib

/-
Verification development for the writeback-actions engine of this repository
(src/src/metabase/actions.clj) and the SmartScalar condition-rule evaluator
(src/unnamed/part_000).

The Clojure code is shallowly embedded: Clojure values appearing in the
action argument maps become the inductive type CVal, the clojure.spec
contracts become Bool-valued predicates transcribed s/def by s/def, and the
perform-action! pipeline becomes a total function returning an Except value.
Multimethod invocations are modelled together with their arities, because the
source declares the dispatch functions and the methods with parameter counts
that disagree with the call sites; an invocation whose argument count differs
from the parameter count of the function it reaches produces an arity
failure, exactly as a Clojure ArityException would.
-/

namespace MetabaseActions

/-- Clojure map keys as they occur in the action argument maps: keywords,
strings, or integers. -/
inductive CKey where
  | kw (name : String)
  | str (s : String)
  | int (n : Int)
  deriving DecidableEq, Repr

/-- Clojure values as they occur in the action argument maps: nil, integers,
strings, keywords, booleans, vectors and maps. -/
inductive CVal where
  | nilV
  | intV (n : Int)
  | strV (s : String)
  | kwV (name : String)
  | boolV (b : Bool)
  | vecV (elems : List CVal)
  | mapV (entries : List (CKey × CVal))

/-- Lookup of a key in a Clojure map (first matching entry). -/
def mget : List (CKey × CVal) → CKey → Option CVal
  | [], _ => none
  | (k, v) :: rest, key => if k = key then some v else mget rest key

/-- Lookup of an unqualified keyword key in a Clojure value; non-maps have no
keys, matching how clojure.spec s-keys fails on non-map input. -/
def getKey : CVal → String → Option CVal
  | .mapV es, k => mget es (.kw k)
  | _, _ => none

/-- Helper for the s-keys req-un semantics: the key must be present and its
value must satisfy the registered spec for that key. -/
def requiredKey (m : CVal) (k : String) (p : CVal → Bool) : Bool :=
  match getKey m k with
  | some v => p v
  | none => false

/-- Transcription of the spec :actions.args/id, which is (s/and integer? pos?). -/
def isId : CVal → Bool
  | .intV n => 0 < n
  | _ => false

/-- Transcription of vector?, the registered spec for the filter keys of the
row update and row delete query contracts. An empty vector satisfies it. -/
def isVector : CVal → Bool
  | .vecV _ => true
  | _ => false

/-- Transcription of (s/map-of keyword? any?), the registered spec for the
create-row and update-row payloads: a map all of whose keys are keywords.
An empty map satisfies it. -/
def isKwMap : CVal → Bool
  | .mapV es => es.all fun kv => match kv.1 with | .kw _ => true | _ => false
  | _ => false

/-- Transcription of :actions.args.crud.common/query, which is
(s/keys :req-un [source-table]) with source-table an id. -/
def queryCommonValid (v : CVal) : Bool :=
  requiredKey v "source-table" isId

/-- Transcription of :actions.args.crud/common, which is
(s/keys :req-un [database query]). -/
def commonValid (m : CVal) : Bool :=
  requiredKey m "database" isId && requiredKey m "query" queryCommonValid

/-- Transcription of :actions.args.crud.row.update/query: the common query
contract merged with (s/keys :req-un [filter]) where filter is vector?. -/
def rowUpdateQueryValid (v : CVal) : Bool :=
  queryCommonValid v && requiredKey v "filter" isVector

/-- Transcription of :actions.args.crud.row.delete/query: the common query
contract merged with (s/keys :req-un [filter]) where filter is vector?. -/
def rowDeleteQueryValid (v : CVal) : Bool :=
  queryCommonValid v && requiredKey v "filter" isVector

/-- Transcription of :actions.args.crud/row.create: common merged with
(s/keys :req-un [create-row]). -/
def rowCreateValid (m : CVal) : Bool :=
  commonValid m && requiredKey m "create-row" isKwMap

/-- Transcription of :actions.args.crud/row.update: common merged with
(s/keys :req-un [update-row query]) where query is the update query contract. -/
def rowUpdateValid (m : CVal) : Bool :=
  commonValid m && requiredKey m "update-row" isKwMap
    && requiredKey m "query" rowUpdateQueryValid

/-- Transcription of :actions.args.crud/row.delete: common merged with
(s/keys :req-un [query]) where query is the delete query contract. -/
def rowDeleteValid (m : CVal) : Bool :=
  commonValid m && requiredKey m "query" rowDeleteQueryValid

/-- Transcription of :actions.args.crud/bulk.delete, which is
(s/coll-of :actions.args.crud/row.delete); collections are modelled as
vectors, each element must satisfy the row delete contract. -/
def bulkDeleteValid : CVal → Bool
  | .vecV l => l.all rowDeleteValid
  | _ => false

/-- Transcription of the action-arg-map-spec multimethod: the registered
methods for the four actions, with the :default method returning any?. Its
dispatch function is keyword, taking one argument, and every call site
passes one argument, so this multimethod has no arity problem. -/
def actionArgMapSpec (action : String) : CVal → Bool :=
  if action = "row/create" then rowCreateValid
  else if action = "row/update" then rowUpdateValid
  else if action = "row/delete" then rowDeleteValid
  else if action = "bulk/delete" then bulkDeleteValid
  else fun _ => true

/-- Failure outcomes of the dispatch pipeline. Each constructor corresponds
to one throw site of the source (or to an ArityException raised by the
Clojure runtime when a function receives the wrong number of arguments).
The resourceNotFound constructor is the NotFound kind of the error taxonomy;
it is declared here so that theorems can state that no code path produces
it, since perform-action! contains no resource-absence check. -/
inductive Failure where
  | arity (fname : String) (given expected : Nat)
  | invalidArgMap (action : String)
  | actionsNotEnabled
  | dbDoesNotSupportActions (dbId : Option Int)
  | actionsNotEnabledForDb (dbId : Option Int)
  | notSuperuser
  | unknownAction (action : String)
  | actionNotSupportedForDriver (action driverRepr : String)
  | resourceNotFound (dbId : Option Int)
  | handlerFailure (code : Option Nat)
  deriving DecidableEq, Repr

/-- Status code carried in the ex-data of each throw site. An ArityException
carries no status code, and the invalid-arg-map throw passes s/explain-data
as its ex-data, which contains no :status-code key either. -/
def statusCode : Failure → Option Nat
  | .arity _ _ _ => none
  | .invalidArgMap _ => none
  | .actionsNotEnabled => some 400
  | .dbDoesNotSupportActions _ => some 400
  | .actionsNotEnabledForDb _ => some 400
  | .notSuperuser => some 403
  | .unknownAction _ => some 404
  | .actionNotSupportedForDriver _ _ => some 400
  | .resourceNotFound _ => some 404
  | .handlerFailure c => c

/-- A Database record as destructured by perform-action!: id, name, engine
(the driver, absent when the record itself is absent) and the
database-local settings map. -/
structure DB where
  id : Int
  name : String
  engine : Option String
  settings : Option (List (CKey × CVal))

/-- Ambient collaborators of the pipeline: the global feature flag setting,
the Database lookup, the driver capability predicate
(driver/database-supports? driver :actions db) and the optional current
user (some b means api/current-user is bound and b says whether that user
is a superuser). -/
structure Ctx where
  experimentalEnableActions : Bool
  findDatabase : Int → Option DB
  databaseSupportsActions : Option String → Option DB → Bool
  currentUser : Option Bool

/-- Reading the database-enable-actions setting. The setting is declared
with :database-local :only and :default false, so its value comes from the
currently bound database-local values when they carry the key, and is the
default false otherwise. -/
def databaseEnableActions (dbLocalValues : Option (List (CKey × CVal))) : Bool :=
  match dbLocalValues with
  | some s =>
    match mget s (.kw "database-enable-actions") with
    | some (.boolV b) => b
    | _ => false
  | none => false

/-- A method registered on the perform-action!* multimethod under a
sequential [driver action] dispatch key, together with the parameter count
of its fn. Handlers are registered by driver code outside this repository
slice, so the registry is a parameter of the model; the :default method of
the source file is modelled separately below. -/
structure RegMethod where
  driverKind : String
  action : String
  paramCount : Nat
  run : Option String → String → Option DB → CVal → Except Failure CVal

/-- The registry of non-default perform-action!* methods. -/
structure Registry where
  methods : List RegMethod

/-- Transcription of known-actions: the action names appearing in the
sequential dispatch keys of the registered methods (the :default key is not
sequential and is excluded by construction). -/
def knownActions (reg : Registry) : List String :=
  reg.methods.map RegMethod.action

/-- Exact-match method lookup for the (driver, action) dispatch value. The
driver hierarchy is populated by driver registration outside this
repository slice and is not modelled; the settled claims concern dispatch
values for which no method exists at all, where the hierarchy walk also
finds nothing and the :default method is reached. -/
def findMethod (reg : Registry) (driver : Option String) (action : String) :
    Option RegMethod :=
  reg.methods.find? fun m => (some m.driverKind == driver) && (m.action == action)

/-- Printed form of the driver used in the unsupported-action message,
pr-str of the dispatch driver. -/
def reprDriver : Option String → String
  | some s => s
  | none => "nil"

/-- Parameter count of the :default method of perform-action!*: the source
declares it as [driver action arg-map], three parameters, although the
multimethod is invoked with four arguments. -/
def defaultMethodParamCount : Nat := 3

/-- Body of the :default method of perform-action!* as written in the
source: 404 when the action is not a known action, otherwise 400 because
the action is not supported for this driver. Under the declared parameter
count this body is unreachable from the four-argument invocation. -/
def performActionStarDefaultBody (reg : Registry) (driver : Option String)
    (action : String) : Except Failure CVal :=
  if (knownActions reg).contains action = false then
    .error (.unknownAction action)
  else
    .error (.actionNotSupportedForDriver action (reprDriver driver))

/-- Invocation of perform-action!* with its four arguments, as performed at
the end of perform-action!. The dispatch function takes four parameters, so
dispatch succeeds; if a registered method matches, it runs when its own
parameter count is four; otherwise the :default method is reached and,
being declared with three parameters, raises an arity failure. The Bool
component records whether a registered handler actually ran. -/
def callPerformActionStar (reg : Registry) (driver : Option String)
    (action : String) (db : Option DB) (argMap : CVal) :
    Except Failure CVal × Bool :=
  match findMethod reg driver action with
  | some m =>
    if m.paramCount = 4 then (m.run driver action db argMap, true)
    else (.error (.arity "perform-action!* method" 4 m.paramCount), false)
  | none =>
    if defaultMethodParamCount = 4 then
      (performActionStarDefaultBody reg driver action, false)
    else
      (.error (.arity "perform-action!* :default" 4 defaultMethodParamCount), false)

/-- Parameter count of the dispatch function of normalize-action-arg-map,
declared in the source as (fn [action arg-map] (keyword action)). -/
def normalizeDispatchParamCount : Nat := 2

/-- Parameter counts of the methods registered on normalize-action-arg-map:
the row-family methods are declared with a single parameter [query], the
:default method with two parameters [action arg-map]. -/
def normalizeMethodParamCount (action : String) : Nat :=
  if action = "row/create" ∨ action = "row/update" ∨ action = "row/delete" then 1
  else 2

/-- Name of a keyword or string value, the dispatch value (keyword action)
would compute from the first argument. -/
def keywordName : CVal → String
  | .kwV s => s
  | .strV s => s
  | _ => ""

/-- Invocation of the normalize-action-arg-map multimethod on an explicit
argument list. Invoking a multimethod first invokes its dispatch function
on the same arguments, so an argument count different from the parameter
count of the dispatch function raises an arity failure before any method is
selected; with a matching count the method chosen by the dispatch value
runs when its own parameter count also matches. The row-family method
bodies (normalize-as-mbql-query) are unreachable under either argument
count: a one-argument call dies in the dispatch function and a two-argument
call would die invoking the one-parameter row-family methods, so the mbql
normalization and schema validation they perform are not modelled further. -/
def callNormalizeActionArgMap (args : List CVal) : Except Failure CVal :=
  if args.length ≠ normalizeDispatchParamCount then
    .error (.arity "normalize-action-arg-map" args.length normalizeDispatchParamCount)
  else
    match args with
    | [a, m] =>
      let act := keywordName a
      if normalizeMethodParamCount act = 2 then .ok m
      else .error (.arity "normalize-action-arg-map method" 2 (normalizeMethodParamCount act))
    | _ => .error (.arity "normalize-action-arg-map" args.length normalizeDispatchParamCount)

/-- Integer view of a Clojure value, used for the database id extracted
from the argument map. -/
def asInt : CVal → Option Int
  | .intV n => some n
  | _ => none

/-- The portion of perform-action! that follows normalization, on an
already-normalized argument map: spec validation, the global feature flag
check, the Database lookup and destructuring, the driver capability check,
then, inside the binding of the database-local values to the settings of
the looked-up Database, the database-local enablement check, the superuser
check, and the hand-off to perform-action!*. The source contains no check
that the looked-up Database exists: an absent record destructures to nil
fields and flows into the capability check. -/
def performActionChecksCore (ctx : Ctx) (reg : Registry) (action : String)
    (argMap : CVal) : Except Failure CVal × Bool :=
  if actionArgMapSpec action argMap = false then
    (.error (.invalidArgMap action), false)
  else if ctx.experimentalEnableActions = false then
    (.error .actionsNotEnabled, false)
  else
    let databaseId := (getKey argMap "database").bind asInt
    let db := databaseId.bind ctx.findDatabase
    let driver := db.bind DB.engine
    if ctx.databaseSupportsActions driver db = false then
      (.error (.dbDoesNotSupportActions (db.map DB.id)), false)
    else
      let localSettings := db.bind DB.settings
      if databaseEnableActions localSettings = false then
        (.error (.actionsNotEnabledForDb databaseId), false)
      else if ctx.currentUser = some false then
        (.error .notSuperuser, false)
      else
        callPerformActionStar reg driver action db argMap

/-- Result of one pipeline run: the outcome, whether a registered handler
was invoked, and the value of the database-local-values dynamic var after
the call returns or throws. -/
structure ActionResult where
  result : Except Failure CVal
  handlerInvoked : Bool
  dbLocalAfter : Option (List (CKey × CVal))

/-- The checks portion of perform-action! together with the dynamic-var
frame. The source wraps the database-local enablement check, the superuser
check and the handler invocation in (binding [database-local-values
db-settings] ...); Clojure binding pushes the new value for the extent of
the body and pops it on every exit, normal return or thrown exception, so
the var holds its prior ambient value s0 after the call on every path, and
the reads inside the body see the settings of the looked-up Database, never
the ambient pre-call value. -/
def performActionChecks (ctx : Ctx) (reg : Registry) (action : String)
    (argMap : CVal) (s0 : Option (List (CKey × CVal))) : ActionResult :=
  ⟨(performActionChecksCore ctx reg action argMap).1,
   (performActionChecksCore ctx reg action argMap).2, s0⟩

/-- Transcription of perform-action!: the argument map is first passed to
normalize-action-arg-map — with a single argument, exactly as at the call
site (normalize-action-arg-map arg-map) — and on success the normalized
map flows into the validation and enablement checks. -/
def performAction (ctx : Ctx) (reg : Registry) (action : String)
    (argMap : CVal) (s0 : Option (List (CKey × CVal))) : ActionResult :=
  match callNormalizeActionArgMap [argMap] with
  | .error e => ⟨.error e, false, s0⟩
  | .ok normalized => performActionChecks ctx reg action normalized s0

/-- One condition rule of the scalar.color setting consumed by the render
method of the SmartScalar component: a primary condition with its threshold
value, a color, and an optional second condition with its threshold. Absent
thresholds model the JS value undefined. -/
structure ColorRule where
  condition : String
  value : Option Int
  color : String
  condition2 : String
  value2 : Option Int

/-- JS truthiness of an optional number: undefined and 0 are falsy. -/
def truthyInt : Option Int → Bool
  | none => false
  | some n => n != 0

/-- JS truthiness of a string: the empty string is falsy. -/
def truthyStr (s : String) : Bool := s != ""

/-- The lexical environment of the rule-evaluation code inside the render
method of the SmartScalar component, restricted to the numeric identifiers
the comparison branches may reference by name: only the identifier value
(the displayed scalar value) is in scope. -/
def renderEnv (value : Int) : String → Option Int :=
  fun n => if n = "value" then some value else none

/-- Resolution of an identifier in the embedding of the JS code: a name
bound in the environment yields its value, an unbound name raises a
ReferenceError, as evaluating an undeclared identifier does in JS. -/
def lookupVar (env : String → Option Int) (n : String) : Except String Int :=
  match env n with
  | some v => .ok v
  | none => .error ("ReferenceError: " ++ n ++ " is not defined")

/-- JS comparison of a possibly-undefined left operand with a number: a
comparison in which one operand is undefined evaluates to false. -/
def jsCmp (l : Option Int) (cmp : Int → Bool) : Bool :=
  match l with
  | some a => cmp a
  | none => false

/-- The first switch of the rule evaluator, on a.condition: each branch
compares the rule threshold a.value with the identifier value, which every
branch of this switch spells correctly; the default branch leaves temp
undefined (modelled as none). -/
def evalCond (env : String → Option Int) (cond : String) (av : Option Int) :
    Except String (Option Bool) :=
  if cond = "Is Equal to" then do
    let v ← lookupVar env "value"
    .ok (some (jsCmp av fun a => a == v))
  else if cond = "Is Less than" then do
    let v ← lookupVar env "value"
    .ok (some (jsCmp av fun a => v < a))
  else if cond = "Is Greater than" then do
    let v ← lookupVar env "value"
    .ok (some (jsCmp av fun a => a < v))
  else if cond = "Is Less than Equal to" then do
    let v ← lookupVar env "value"
    .ok (some (jsCmp av fun a => v ≤ a))
  else if cond = "Is Greater than Equal to" then do
    let v ← lookupVar env "value"
    .ok (some (jsCmp av fun a => a ≤ v))
  else .ok none

/-- The second switch of the rule evaluator, on a.condition2: three branches
compare a.value2 against the identifier value, but the branch for the
condition Is Less than Equal to is written a.value2 >= values in the
source, referencing the identifier values, which is not bound anywhere in
the component; its evaluation therefore resolves the name values in the
environment instead of the name value. The default branch leaves temp2
undefined. -/
def evalCond2 (env : String → Option Int) (cond2 : String) (av2 : Option Int) :
    Except String (Option Bool) :=
  if cond2 = "Is Less than" then do
    let v ← lookupVar env "value"
    .ok (some (jsCmp av2 fun a => v < a))
  else if cond2 = "Is Greater than" then do
    let v ← lookupVar env "value"
    .ok (some (jsCmp av2 fun a => a < v))
  else if cond2 = "Is Less than Equal to" then do
    let v ← lookupVar env "values"
    .ok (some (jsCmp av2 fun a => v ≤ a))
  else if cond2 = "Is Greater than Equal to" then do
    let v ← lookupVar env "value"
    .ok (some (jsCmp av2 fun a => a ≤ v))
  else .ok none

/-- Evaluation of one rule inside the forEach: temp from the first switch,
temp2 from the second switch, then the override temp2 = true when a.value2
is falsy, and finally the truthiness of temp && temp2 deciding whether the
rule color is taken. A ReferenceError thrown inside either switch aborts
the evaluation before the override runs. -/
def evalRuleMatches (env : String → Option Int) (a : ColorRule) :
    Except String Bool := do
  let temp ← evalCond env a.condition a.value
  let t2 ← evalCond2 env a.condition2 a.value2
  let temp2 := if truthyInt a.value2 = false then some true else t2
  .ok (temp.getD false && temp2.getD false)

/-- The whole evaluator over the rules of the scalar.color setting: rules
whose condition, value or color is falsy are filtered out, the remaining
rules are folded in order, each matching rule overwriting displayColor with
its color; the initial displayColor is the empty string. -/
def smartDisplayColor (rules : List ColorRule) (value : Int) :
    Except String String :=
  let g := rules.filter fun r =>
    truthyStr r.condition && truthyInt r.value && truthyStr r.color
  g.foldlM
    (fun dc a => do
      let m ← evalRuleMatches (renderEnv value) a
      pure (if m then a.color else dc))
    ""

/-
Concrete sample values, taken from the commented examples of the source and
from the scenarios of the specification.
-/

/-- A well-formed mbql filter clause, the clause of the commented example
in the source. -/
def sampleFilter : CVal :=
  .vecV [.kwV "=", .vecV [.kwV "field", .intV 51, .nilV], .intV 1]

/-- Query fragment with a source table and the sample filter. -/
def queryWithFilter : CVal :=
  .mapV [(.kw "source-table", .intV 29), (.kw "filter", sampleFilter)]

/-- Query fragment with a source table and an empty-vector filter. -/
def queryEmptyFilter : CVal :=
  .mapV [(.kw "source-table", .intV 29), (.kw "filter", .vecV [])]

/-- Query fragment with a source table and no filter key. -/
def queryNoFilter : CVal :=
  .mapV [(.kw "source-table", .intV 29)]

/-- Row update argument map with a non-empty filter and a payload. -/
def updMapWithFilter : CVal :=
  .mapV [(.kw "database", .intV 2), (.kw "type", .kwV "query"),
         (.kw "query", queryWithFilter),
         (.kw "update-row", .mapV [(.kw "name", .strV "Bob")])]

/-- Row update argument map identical to updMapWithFilter except that its
filter is the empty vector. -/
def updMapEmptyFilter : CVal :=
  .mapV [(.kw "database", .intV 2), (.kw "type", .kwV "query"),
         (.kw "query", queryEmptyFilter),
         (.kw "update-row", .mapV [(.kw "name", .strV "Bob")])]

/-- Row update argument map whose query has no filter key. -/
def updMapNoFilter : CVal :=
  .mapV [(.kw "database", .intV 2), (.kw "type", .kwV "query"),
         (.kw "query", queryNoFilter),
         (.kw "update-row", .mapV [(.kw "name", .strV "Bob")])]

/-- Row delete argument map with a non-empty filter. -/
def delMapWithFilter : CVal :=
  .mapV [(.kw "database", .intV 2), (.kw "type", .kwV "query"),
         (.kw "query", queryWithFilter)]

/-- Row delete argument map identical to delMapWithFilter except that its
filter is the empty vector. -/
def delMapEmptyFilter : CVal :=
  .mapV [(.kw "database", .intV 2), (.kw "type", .kwV "query"),
         (.kw "query", queryEmptyFilter)]

/-- Row delete argument map whose query has no filter key. -/
def delMapNoFilter : CVal :=
  .mapV [(.kw "database", .intV 2), (.kw "type", .kwV "query"),
         (.kw "query", queryNoFilter)]

/-- Row create argument map with a non-empty payload. -/
def createMapWithPayload : CVal :=
  .mapV [(.kw "database", .intV 2), (.kw "type", .kwV "query"),
         (.kw "query", queryWithFilter),
         (.kw "create-row", .mapV [(.kw "name", .strV "Bob")])]

/-- Row create argument map identical to createMapWithPayload except that
its create-row payload is the empty map. -/
def createMapEmptyPayload : CVal :=
  .mapV [(.kw "database", .intV 2), (.kw "type", .kwV "query"),
         (.kw "query", queryWithFilter),
         (.kw "create-row", .mapV [])]

/-- Row create argument map with no create-row key. -/
def createMapNoPayload : CVal :=
  .mapV [(.kw "database", .intV 2), (.kw "type", .kwV "query"),
         (.kw "query", queryWithFilter)]

/-- Row update argument map whose update-row payload is the empty map. -/
def updMapEmptyPayload : CVal :=
  .mapV [(.kw "database", .intV 2), (.kw "type", .kwV "query"),
         (.kw "query", queryWithFilter),
         (.kw "update-row", .mapV [])]

/-- The bulk delete batch of the specification scenario: the first element
carries a filter, the second does not. -/
def scenarioBatch : CVal :=
  .vecV [delMapWithFilter, delMapNoFilter]

/-- The empty registry: no perform-action!* method registered beyond the
:default one of the source file. -/
def regEmpty : Registry := ⟨[]⟩

/-- A handler that succeeds with nil, used to populate sample registries. -/
def dummyHandler : Option String → String → Option DB → CVal → Except Failure CVal :=
  fun _ _ _ _ => .ok .nilV

/-- A registry with a single four-parameter method registered for the
dispatch key [postgres row/create]. -/
def regOnePg : Registry := ⟨[⟨"postgres", "row/create", 4, dummyHandler⟩]⟩

/-- A Database record whose own settings enable actions. -/
def dbLocalOn : DB :=
  ⟨2, "Test", some "postgres",
   some [(.kw "database-enable-actions", .boolV true)]⟩

/-- A Database record whose own settings disable actions. -/
def dbLocalOff : DB :=
  ⟨2, "Test", some "postgres",
   some [(.kw "database-enable-actions", .boolV false)]⟩

/-- Context with the global flag off. -/
def ctxOff : Ctx :=
  ⟨false, fun n => if n = 2 then some dbLocalOn else none, fun _ _ => true, none⟩

/-- Context with the global flag on, Database 2 present with its local flag
on, a driver that supports actions, and no bound current user. -/
def ctxLocalOn : Ctx :=
  ⟨true, fun n => if n = 2 then some dbLocalOn else none, fun _ _ => true, none⟩

/-- Same as ctxLocalOn except that the settings of Database 2 disable
actions for it. -/
def ctxLocalOff : Ctx :=
  ⟨true, fun n => if n = 2 then some dbLocalOff else none, fun _ _ => true, none⟩

/-
Helper lemmas shared by the theorems below.
-/

/-- Distinct failures give distinct error results. -/
theorem errNe {α : Type} {e1 e2 : Failure} (h : e1 ≠ e2) :
    (Except.error e1 : Except Failure α) ≠ Except.error e2 :=
  fun hc => h (Except.error.inj hc)

/-- The first switch of the rule evaluator never throws in the render
environment: every branch only references the identifier value, which is
bound there. -/
theorem evalCond_ok (value : Int) (cond : String) (av : Option Int) :
    ∃ t, evalCond (renderEnv value) cond av = .ok t := by
  unfold evalCond
  split
  · exact ⟨_, rfl⟩
  · split
    · exact ⟨_, rfl⟩
    · split
      · exact ⟨_, rfl⟩
      · split
        · exact ⟨_, rfl⟩
        · split
          · exact ⟨_, rfl⟩
          · exact ⟨_, rfl⟩

/-
Theorems for the claims.
-/

/-- Claim C1: the claim states that with the global actions flag disabled,
perform-action! fails with the FeatureDisabled client failure of status 400
before any resource-specific check. On the code as written this is wrong:
the call (normalize-action-arg-map arg-map) passes one argument to a
multimethod whose dispatch function takes two parameters, so every
invocation — the global flag notwithstanding — raises an arity failure
carrying no status code, the FeatureDisabled failure is never produced,
and no handler runs. -/
theorem globalFlagOff_arityError_not_featureDisabled :
    ∀ (reg : Registry) (m : CVal) (s0 : Option (List (CKey × CVal))),
      ctxOff.experimentalEnableActions = false
      ∧ (performAction ctxOff reg "row/create" m s0).result
          = .error (.arity "normalize-action-arg-map" 1 2)
      ∧ (performAction ctxOff reg "row/create" m s0).result ≠ .error .actionsNotEnabled
      ∧ (performAction ctxOff reg "row/create" m s0).handlerInvoked = false
      ∧ statusCode (.arity "normalize-action-arg-map" 1 2) = none
      ∧ statusCode .actionsNotEnabled = some 400 := by
  intro reg m s0
  exact ⟨rfl, rfl,
    @errNe _ (.arity "normalize-action-arg-map" 1 2) .actionsNotEnabled (by decide),
    rfl, rfl, rfl⟩

/-- Claim C1 witness: the concrete row/create scenario of the specification
evaluated with the global flag off. -/
theorem globalFlagOff_witness :
    (performAction ctxOff regEmpty "row/create" createMapWithPayload none).result
      = .error (.arity "normalize-action-arg-map" 1 2) :=
  (globalFlagOff_arityError_not_featureDisabled regEmpty createMapWithPayload none).2.1

/-- Claim C2: the claim states that a pair (driver, action) with no
registered handler fails with the unsupported-for-this-connector 400 when
the action is known under another driver, and with the Unknown Action 404
when no handler for the action exists anywhere. The body of the :default
perform-action!* method indeed implements exactly that distinction, with
those status codes — but the method is declared with three parameters while
the multimethod is invoked with four arguments, so reaching it raises an
arity failure and neither described failure is ever produced. -/
theorem missingHandler_defaultMethod_arityError :
    ∀ (driver : Option String) (db : Option DB) (m : CVal),
      callPerformActionStar regEmpty driver "row/create" db m
        = (Except.error (Failure.arity "perform-action!* :default" 4 3), false)
      ∧ callPerformActionStar regOnePg (some "mysql") "row/create" db m
        = (Except.error (Failure.arity "perform-action!* :default" 4 3), false)
      ∧ performActionStarDefaultBody regEmpty driver "row/create"
          = Except.error (Failure.unknownAction "row/create")
      ∧ performActionStarDefaultBody regOnePg (some "mysql") "row/create"
          = Except.error (Failure.actionNotSupportedForDriver "row/create" "mysql")
      ∧ statusCode (Failure.unknownAction "row/create") = some 404
      ∧ statusCode (Failure.actionNotSupportedForDriver "row/create" "mysql") = some 400
      ∧ defaultMethodParamCount = 3 := by
  intro driver db m
  exact ⟨rfl, rfl, rfl, rfl, rfl, rfl, rfl⟩

/-- Claim C2 witness: the arity failure at the concrete dispatch value
(mysql, row/create) against the registry holding only a postgres method. -/
theorem missingHandler_witness :
    callPerformActionStar regOnePg (some "mysql") "row/create" none CVal.nilV
      = (Except.error (Failure.arity "perform-action!* :default" 4 3), false) :=
  (missingHandler_defaultMethod_arityError (some "mysql") none CVal.nilV).2.1

/-- Claim C3: perform-action! passes a single argument to
normalize-action-arg-map although the dispatch function of that multimethod
is declared with two parameters and the row-family methods with one, so
every invocation of perform-action! raises an arity failure at the
normalization step, before spec validation, before any enablement check,
and before any handler can run. -/
theorem normalizeArityMismatch_allCallsFail :
    ∀ (ctx : Ctx) (reg : Registry) (action : String) (m : CVal)
      (s0 : Option (List (CKey × CVal))),
      normalizeDispatchParamCount = 2
      ∧ normalizeMethodParamCount "row/create" = 1
      ∧ normalizeMethodParamCount "row/update" = 1
      ∧ normalizeMethodParamCount "row/delete" = 1
      ∧ normalizeMethodParamCount "bulk/delete" = 2
      ∧ callNormalizeActionArgMap [m] = .error (.arity "normalize-action-arg-map" 1 2)
      ∧ (performAction ctx reg action m s0).result
          = .error (.arity "normalize-action-arg-map" 1 2)
      ∧ (performAction ctx reg action m s0).result ≠ .error (.invalidArgMap action)
      ∧ (performAction ctx reg action m s0).result ≠ .error .actionsNotEnabled
      ∧ (performAction ctx reg action m s0).handlerInvoked = false := by
  intro ctx reg action m s0
  exact ⟨rfl, rfl, rfl, rfl, rfl, rfl, rfl,
    @errNe _ (.arity "normalize-action-arg-map" 1 2) (.invalidArgMap action)
      (fun h => Failure.noConfusion h),
    @errNe _ (.arity "normalize-action-arg-map" 1 2) .actionsNotEnabled (by decide),
    rfl⟩

/-- Claim C3 witness: the arity failure on the concrete row/create scenario
of the specification. -/
theorem normalizeArityMismatch_witness :
    (performAction ctxLocalOn regEmpty "row/create" createMapWithPayload none).result
      = .error (.arity "normalize-action-arg-map" 1 2) :=
  (normalizeArityMismatch_allCallsFail ctxLocalOn regEmpty "row/create"
    createMapWithPayload none).2.2.2.2.2.2.1

/-- Claim C4 counterexample: the claim states that a row/update or
row/delete argument map whose query has an empty filter fails validation;
in the code the registered filter spec is vector?, which the empty vector
satisfies, so both maps below — empty-vector filters — pass validation. -/
theorem emptyFilter_passes_counterexample :
    rowUpdateValid updMapEmptyFilter = true
    ∧ rowDeleteValid delMapEmptyFilter = true := by
  decide

/-- Claim C4 (amended): a row/update or row/delete argument map whose query
lacks the filter key fails validation, and the identical map with a vector
filter — non-empty or empty alike — passes this stage: the contract
requires the filter key to be present and hold a vector but does not check
non-emptiness. -/
theorem filterKey_required_but_emptiness_unchecked :
    (∀ m q : CVal, getKey m "query" = some q → getKey q "filter" = none →
        rowUpdateValid m = false ∧ rowDeleteValid m = false)
    ∧ rowUpdateValid updMapWithFilter = true
    ∧ rowDeleteValid delMapWithFilter = true
    ∧ rowUpdateValid updMapEmptyFilter = true
    ∧ rowDeleteValid delMapEmptyFilter = true := by
  refine ⟨?_, by decide, by decide, by decide, by decide⟩
  intro m q hq hf
  constructor
  · simp [rowUpdateValid, requiredKey, hq, rowUpdateQueryValid, hf]
  · simp [rowDeleteValid, requiredKey, hq, rowDeleteQueryValid, hf]

/-- Claim C4 witness: the universal part applied to the concrete maps whose
query lacks the filter key. -/
theorem filterKey_required_witness :
    getKey updMapNoFilter "query" = some queryNoFilter
    ∧ getKey queryNoFilter "filter" = none
    ∧ rowUpdateValid updMapNoFilter = false
    ∧ rowDeleteValid delMapNoFilter = false :=
  ⟨rfl, rfl,
   (filterKey_required_but_emptiness_unchecked.1 updMapNoFilter queryNoFilter rfl rfl).1,
   (filterKey_required_but_emptiness_unchecked.1 delMapNoFilter queryNoFilter rfl rfl).2⟩

/-- Claim C5 counterexample: the claim states that an empty create-row or
update-row payload is rejected; in the code the registered payload spec is
(s/map-of keyword? any?), which the empty map satisfies, so both maps below
— empty payload maps — pass validation. -/
theorem emptyPayload_passes_counterexample :
    rowCreateValid createMapEmptyPayload = true
    ∧ rowUpdateValid updMapEmptyPayload = true := by
  decide

/-- Claim C5 (amended): row/create validation requires the create-row key
to be present and hold a map with keyword keys, and row/update likewise for
update-row; an absent payload is rejected, but an empty payload map passes
— non-emptiness is not checked. -/
theorem payloadKey_required_but_emptiness_unchecked :
    (∀ m : CVal, getKey m "create-row" = none → rowCreateValid m = false)
    ∧ (∀ m : CVal, getKey m "update-row" = none → rowUpdateValid m = false)
    ∧ rowCreateValid createMapWithPayload = true
    ∧ rowUpdateValid updMapWithFilter = true
    ∧ rowCreateValid createMapEmptyPayload = true
    ∧ rowUpdateValid updMapEmptyPayload = true := by
  refine ⟨?_, ?_, by decide, by decide, by decide, by decide⟩
  · intro m h
    simp [rowCreateValid, requiredKey, h]
  · intro m h
    simp [rowUpdateValid, requiredKey, h]

/-- Claim C5 witness: the universal parts applied to concrete maps lacking
the payload keys. -/
theorem payloadKey_required_witness :
    getKey createMapNoPayload "create-row" = none
    ∧ rowCreateValid createMapNoPayload = false
    ∧ getKey delMapWithFilter "update-row" = none
    ∧ rowUpdateValid delMapWithFilter = false :=
  ⟨rfl, payloadKey_required_but_emptiness_unchecked.1 createMapNoPayload rfl,
   rfl, payloadKey_required_but_emptiness_unchecked.2.1 delMapWithFilter rfl⟩

/-- Claim C6: a bulk/delete argument map validates exactly when it is a
collection each of whose elements individually satisfies the row/delete
contract, the empty collection validating; on the two-element batch of the
specification scenario, whose second element lacks a filter, validation of
the whole batch fails, the checks stage surfaces the validation failure,
and no handler is invoked through either the checks stage or the full
perform-action! entry point. -/
theorem bulkDelete_elementwise_validation :
    ∀ (ctx : Ctx) (reg : Registry) (s0 : Option (List (CKey × CVal)))
      (l : List CVal),
      bulkDeleteValid (.vecV l) = l.all rowDeleteValid
      ∧ bulkDeleteValid (.vecV []) = true
      ∧ rowDeleteValid delMapWithFilter = true
      ∧ rowDeleteValid delMapNoFilter = false
      ∧ bulkDeleteValid scenarioBatch = false
      ∧ (performActionChecks ctx reg "bulk/delete" scenarioBatch s0).result
          = .error (.invalidArgMap "bulk/delete")
      ∧ (performActionChecks ctx reg "bulk/delete" scenarioBatch s0).handlerInvoked = false
      ∧ (performAction ctx reg "bulk/delete" scenarioBatch s0).handlerInvoked = false := by
  intro ctx reg s0 l
  have hspec : actionArgMapSpec "bulk/delete" scenarioBatch = false := by decide
  refine ⟨rfl, rfl, by decide, by decide, by decide, ?_, ?_, rfl⟩
  · unfold performActionChecks performActionChecksCore
    simp [hspec]
  · unfold performActionChecks performActionChecksCore
    simp [hspec]

/-- Claim C6 witness: the scenario facts at concrete inputs. -/
theorem bulkDelete_witness :
    bulkDeleteValid scenarioBatch = false
    ∧ (performActionChecks ctxLocalOn regEmpty "bulk/delete" scenarioBatch none).result
        = .error (.invalidArgMap "bulk/delete") :=
  ⟨(bulkDelete_elementwise_validation ctxLocalOn regEmpty none []).2.2.2.2.1,
   (bulkDelete_elementwise_validation ctxLocalOn regEmpty none []).2.2.2.2.2.1⟩

/-- Claim C7: the claim states that an absent target resource makes
perform-action! fail NotFound with status 404 before the capability, local
and superuser checks. On the code as written this is wrong twice over:
every invocation dies earlier with the normalization arity failure, and
the checks portion of perform-action! contains no resource-absence test at
all — it never produces the NotFound failure for any input, an absent
Database simply destructuring to nil fields that flow into the capability
check. -/
theorem missingResource_no_notFound_failure :
    ∀ (ctx : Ctx) (action : String) (m : CVal)
      (s0 : Option (List (CKey × CVal))) (oid : Option Int),
      (performActionChecks ctx regEmpty action m s0).result
        ≠ .error (.resourceNotFound oid)
      ∧ (performAction ctx regEmpty action m s0).result
          = .error (.arity "normalize-action-arg-map" 1 2)
      ∧ (performAction ctx regEmpty action m s0).result
          ≠ .error (.resourceNotFound oid) := by
  intro ctx action m s0 oid
  refine ⟨?_, rfl,
    @errNe _ (.arity "normalize-action-arg-map" 1 2) (.resourceNotFound oid)
      (fun h => Failure.noConfusion h)⟩
  unfold performActionChecks performActionChecksCore callPerformActionStar
  simp only [regEmpty, findMethod, List.find?]
  split
  · simp
  · split
    · simp
    · split
      · simp
      · split
        · simp
        · split
          · simp
          · simp [defaultMethodParamCount]

/-- Claim C7 witness: a concrete call whose argument map references
Database 999, absent from the store of ctxLocalOn. -/
theorem missingResource_witness :
    (performAction ctxLocalOn regEmpty "row/delete"
        (CVal.mapV [(.kw "database", .intV 999), (.kw "query", queryWithFilter)]) none).result
      = .error (.arity "normalize-action-arg-map" 1 2) :=
  (missingResource_no_notFound_failure ctxLocalOn "row/delete"
    (CVal.mapV [(.kw "database", .intV 999), (.kw "query", queryWithFilter)]) none none).2.1

/-- Claim C8: the claim states that for row-family actions the argument map
is normalized as an mbql query before spec validation and that a malformed
stamped query fails with a 400 validation error carrying the grammar
detail. On the code as written the row-family normalization never runs:
the one-argument invocation of normalize-action-arg-map raises an arity
failure, carrying no status code, for every row-family action, and the
spec-validation failure kind is never reached either. -/
theorem rowNormalization_arityError_not_grammarError :
    ∀ (ctx : Ctx) (reg : Registry) (m : CVal) (s0 : Option (List (CKey × CVal))),
      (performAction ctx reg "row/create" m s0).result
        = .error (.arity "normalize-action-arg-map" 1 2)
      ∧ (performAction ctx reg "row/update" m s0).result
          = .error (.arity "normalize-action-arg-map" 1 2)
      ∧ (performAction ctx reg "row/delete" m s0).result
          = .error (.arity "normalize-action-arg-map" 1 2)
      ∧ normalizeMethodParamCount "row/create" = 1
      ∧ statusCode (.arity "normalize-action-arg-map" 1 2) = none
      ∧ (performAction ctx reg "row/create" m s0).result
          ≠ .error (.invalidArgMap "row/create") := by
  intro ctx reg m s0
  exact ⟨rfl, rfl, rfl, rfl, rfl,
    @errNe _ (.arity "normalize-action-arg-map" 1 2) (.invalidArgMap "row/create")
      (by decide)⟩

/-- Claim C8 witness: a concrete row/create call whose query value is not
even a map, which the claim says should fail with the grammar error. -/
theorem rowNormalization_witness :
    (performAction ctxLocalOn regEmpty "row/create"
        (CVal.mapV [(.kw "database", .intV 2), (.kw "query", .strV "garbage")]) none).result
      = .error (.arity "normalize-action-arg-map" 1 2) :=
  (rowNormalization_arityError_not_grammarError ctxLocalOn regEmpty
    (CVal.mapV [(.kw "database", .intV 2), (.kw "query", .strV "garbage")]) none).1

/-- Claim C9: the database-local values bound for the gate are scoped to
the single call and restored on every exit path — the dynamic var holds its
ambient pre-call value after perform-action! and after the checks stage for
every input, including validation failures and failing handlers — the
outcome and the handler-invocation flag are independent of the ambient
pre-call value, and the database-local enablement flag is read from the
settings of the looked-up Database: with the process default false, a
Database whose own settings enable actions passes the local check while an
otherwise identical Database whose settings disable them fails it. -/
theorem dbLocalBinding_scoped_and_restored :
    ∀ (ctx : Ctx) (reg : Registry) (action : String) (m : CVal)
      (s0 s1 : Option (List (CKey × CVal))),
      (performAction ctx reg action m s0).dbLocalAfter = s0
      ∧ (performActionChecks ctx reg action m s0).dbLocalAfter = s0
      ∧ (performActionChecks ctx reg action m s0).result
          = (performActionChecks ctx reg action m s1).result
      ∧ (performActionChecks ctx reg action m s0).handlerInvoked
          = (performActionChecks ctx reg action m s1).handlerInvoked
      ∧ databaseEnableActions none = false
      ∧ databaseEnableActions dbLocalOn.settings = true
      ∧ (performActionChecks ctxLocalOn regEmpty "row/delete" delMapWithFilter s0).result
          = .error (.arity "perform-action!* :default" 4 3)
      ∧ (performActionChecks ctxLocalOff regEmpty "row/delete" delMapWithFilter s0).result
          = .error (.actionsNotEnabledForDb (some 2)) := by
  intro ctx reg action m s0 s1
  exact ⟨rfl, rfl, rfl, rfl, rfl, rfl, rfl, rfl⟩

/-- Claim C9 witness: the restoration fact at a concrete ambient value. -/
theorem dbLocalBinding_witness :
    (performActionChecks ctxLocalOn regEmpty "row/delete" delMapWithFilter
        (some [(.kw "database-enable-actions", .boolV false)])).dbLocalAfter
      = some [(.kw "database-enable-actions", .boolV false)] :=
  (dbLocalBinding_scoped_and_restored ctxLocalOn regEmpty "row/delete" delMapWithFilter
    (some [(.kw "database-enable-actions", .boolV false)]) none).2.1

/-- Claim C10: in the second switch of the SmartScalar condition-rule
evaluator, the branch for the condition Is Less than Equal to references
the identifier values, which is not bound in the render environment — only
value is — so evaluating that branch raises a ReferenceError instead of
producing any boolean, in particular never the intended comparison
a.value2 >= value, and a rule carrying that second condition aborts the
whole rule evaluation. -/
theorem smartScalar_cond2_le_referenceError :
    ∀ (value : Int) (av2 v1 : Option Int) (cond colorS : String),
      renderEnv value "values" = none
      ∧ renderEnv value "value" = some value
      ∧ evalCond2 (renderEnv value) "Is Less than Equal to" av2
          = .error "ReferenceError: values is not defined"
      ∧ (∀ b : Option Bool,
          evalCond2 (renderEnv value) "Is Less than Equal to" av2 ≠ .ok b)
      ∧ evalRuleMatches (renderEnv value)
            ⟨cond, v1, colorS, "Is Less than Equal to", av2⟩
          = .error "ReferenceError: values is not defined"
      ∧ smartDisplayColor
            [⟨"Is Equal to", some 5, "red", "Is Less than Equal to", some 7⟩] value
          = .error "ReferenceError: values is not defined" := by
  intro value av2 v1 cond colorS
  refine ⟨rfl, rfl, rfl, ?_, ?_, rfl⟩
  · intro b h
    rw [show evalCond2 (renderEnv value) "Is Less than Equal to" av2
          = .error "ReferenceError: values is not defined" from rfl] at h
    exact Except.noConfusion h
  · unfold evalRuleMatches
    obtain ⟨t, ht⟩ := evalCond_ok value cond v1
    simp [ht]
    rfl

/-- Claim C10 witness: the ReferenceError at a concrete scalar value and
rule threshold. -/
theorem smartScalar_witness :
    evalCond2 (renderEnv 10) "Is Less than Equal to" (some 7)
      = .error "ReferenceError: values is not defined" :=
  (smartScalar_cond2_le_referenceError 10 (some 7) (some 5) "Is Equal to" "red").2.2.1

end MetabaseActions
